import Mathlib

/-!
Shallow embedding of the ScrapeIt image-scraping backend
(`src/backend/scrapers/images.py`, `src/backend/routers/root.py`).

Python strings are modelled as Lean `String`s; the Python string
primitives used by the source (`startswith`, `endswith`, `lower`,
`rstrip("/")`, `lstrip("/")`, `re.sub`, `os.path.basename`) are modelled
explicitly below on the character list of the string.
-/

namespace ScrapeIt

/-- Model of Python `s.startswith(pre)`. -/
def startswith (s pre : String) : Bool :=
  pre.data.isPrefixOf s.data

/-- Model of Python `s.endswith(suf)`. -/
def endswith (s suf : String) : Bool :=
  suf.data.isSuffixOf s.data

/-- Model of Python `s.lower()` (ASCII case folding, which is all the
source applies it to: URLs and filenames compared against ASCII
extension literals). -/
def lower (s : String) : String :=
  String.mk (s.data.map Char.toLower)

/-- Model of Python `s.rstrip("/")`: drop every trailing slash. -/
def rstripSlash (s : String) : String :=
  String.mk ((s.data.reverse.dropWhile (fun c => c = '/')).reverse)

/-- Model of Python `s.lstrip("/")`: drop every leading slash. -/
def lstripSlash (s : String) : String :=
  String.mk (s.data.dropWhile (fun c => c = '/'))

/-- Model of `re.sub(r"\?.*", "", s)`: each match starts at a `?` and
runs to the end of the line (`.` does not match a newline), and all
matches are removed. The `Bool` flag records whether we are inside a
match. -/
def stripQueryAux : Bool → List Char → List Char
  | _, [] => []
  | false, c :: rest =>
      if c = '?' then stripQueryAux true rest
      else c :: stripQueryAux false rest
  | true, c :: rest =>
      if c = '\n' then c :: stripQueryAux false rest
      else stripQueryAux true rest

def stripQuery (s : String) : String :=
  String.mk (stripQueryAux false s.data)

/-- Model of `os.path.basename` on POSIX: everything after the last
`/` (empty if the string ends in `/`). -/
def basenameAux : List Char → List Char → List Char
  | acc, [] => acc.reverse
  | acc, c :: rest =>
      if c = '/' then basenameAux [] rest
      else basenameAux (c :: acc) rest

def basename (s : String) : String :=
  String.mk (basenameAux [] s.data)

/-- The character class `[a-zA-Z0-9\-.]` of the sanitizing regex in
`sanitize_image_name`. -/
def allowedChar (c : Char) : Bool :=
  ('a' ≤ c && c ≤ 'z') || ('A' ≤ c && c ≤ 'Z') || ('0' ≤ c && c ≤ '9')
    || c = '-' || c = '.'

/-- Embedding of `sanitize_image_name` (images.py): strip the query
string with `re.sub(r"\?.*", "", ·)`, take `os.path.basename`, then
replace every character outside `[a-zA-Z0-9\-.]` with `_`. -/
def sanitize_image_name (image_url : String) : String :=
  String.mk ((basename (stripQuery image_url)).data.map
    (fun c => if allowedChar c then c else '_'))

/-- Embedding of `resolve_url` (images.py). The Python test
`url.startswith(("http", "https"))` is true when the string starts
with either literal. -/
def resolve_url (url base_url : String) : String :=
  if !(startswith url "http" || startswith url "https") then
    if startswith url "//" then "https:" ++ url
    else if startswith url "/" then
      rstripSlash base_url ++ "/" ++ lstripSlash url
    else
      rstripSlash base_url ++ "/" ++ url
  else url

/-- Embedding of `sanitize_url` (images.py):
`hashlib.md5(url.encode()).hexdigest()`. The MD5 digest itself lives in
`hashlib`, an external library; it is abstracted as the function
parameter `md5hex`, applied to the raw URL string with no prior
normalization, exactly as in the source. -/
def sanitize_url (md5hex : String → String) (url : String) : String :=
  md5hex url

/-- A parsed HTML element as seen by `scrape_images`: `soup.find_all`
yields tags with a name, and `tag.get('href')` / `tag.get('src')`
yield the attribute values when present. -/
structure Tag where
  name : String
  href : Option String
  src : Option String
deriving DecidableEq, Repr

/-- The extension set of `scrape_images` (`image_extensions`), equal to
the tuple literal checked by `get_downloads`. -/
def image_extensions : List String :=
  [".jpg", ".jpeg", ".png", ".gif", ".bmp", ".webp"]

/-- The candidate test of `scrape_images`:
`any(url.lower().endswith(ext) for ext in image_extensions)`. -/
def is_image_candidate (url : String) : Bool :=
  image_extensions.any (fun ext => endswith (lower url) ext)

/-- The candidate-collection loop of `scrape_images`: over
`soup.find_all(['img', 'a'])`, for `attr` in `['href', 'src']`, keep
`tag.get(attr)` when present and extension-matching, in document
order without deduplication. -/
def collect_candidates (soup : List Tag) : List String :=
  (soup.filter (fun t => t.name = "img" || t.name = "a")).flatMap
    (fun t => ([t.href, t.src].filterMap id).filter is_image_candidate)

/-- The result of one `session.get` on a resource: the fetched body and
whether `raise_for_status()` passes. `none` at the `Env.fetch` level
models a transport exception. -/
structure FetchResponse where
  content : List Nat
  ok : Bool
deriving DecidableEq, Repr

/-- The collaborator capabilities one pipeline run consumes:
`fetch` is `session.get` on a resource URL (`none` = transport
exception); `decode` is `Image.open(BytesIO(bytes)).format` (`none` =
PIL raised, e.g. on an HTML payload); `writeOk` says whether
`open(save_path, 'wb')` + `write` succeed at a path; `makedirsOk` says
whether `os.makedirs(..., exist_ok=True)` succeeds. -/
structure Env where
  fetch : String → Option FetchResponse
  decode : List Nat → Option String
  writeOk : String → Bool
  makedirsOk : Bool

/-- The accepted format tags of `download_image_if_valid`. -/
def valid_image_formats : List String :=
  ["JPEG", "PNG", "GIF", "BMP", "WEBP"]

/-- Embedding of `download_image_if_valid` (images.py). The whole body
sits in `try/except Exception`, so a transport error, a failing
`raise_for_status`, a PIL decode error, and a failing local write all
fall through to `return None`. The result is the returned value
together with the bytes written to `save_path` (`none` = nothing
written). -/
def download_image_if_valid (env : Env) (image_url save_path : String) :
    Option String × Option (List Nat) :=
  match env.fetch image_url with
  | none => (none, none)
  | some response =>
    if !response.ok then (none, none)
    else
      match env.decode response.content with
      | none => (none, none)
      | some fmt =>
        if valid_image_formats.contains fmt then
          if env.writeOk save_path then (some image_url, some response.content)
          else (none, none)
        else (none, none)

/-- Errors that escape a pipeline run (everything per-resource is
swallowed inside `download_image_if_valid`): a failing `os.makedirs`
in `scrape_images`, and the `IndexError` of `url.split('/')[2]` in
`scrape`. -/
inductive PipelineError
  | makedirsFailed
  | indexError
deriving DecidableEq, Repr

/-- The destination path built at submission time in `scrape_images`:
`os.path.join(os.path.join("downloads", download_dir), sanitize_image_name(url))`
(POSIX join of relative components). -/
def save_path (download_dir url : String) : String :=
  "downloads/" ++ download_dir ++ "/" ++ sanitize_image_name url

/-- Embedding of `scrape_images` (images.py). `dirs` is the set of
directory names existing under `downloads/` (the filesystem state);
`order` is the order in which `as_completed` yields the futures, as
indices into the submitted list — theorems about complete runs assume
it is a permutation of those indices. Each future computes
`download_image_if_valid` on the resolved URL and the sanitized save
path of its raw candidate; the collection loop appends the non-`None`
results in completion order. `os.makedirs(..., exist_ok=True)` runs
before any future is submitted and its failure raises out of the
function. -/
def scrape_images (env : Env) (soup : List Tag) (base_url download_dir : String)
    (dirs : List String) (order : List Nat) :
    Except PipelineError (List String × List String) :=
  let potential_image_urls := collect_candidates soup
  if env.makedirsOk then
    .ok (order.filterMap (fun i => (potential_image_urls.get? i).bind (fun url =>
          (download_image_if_valid env (resolve_url url base_url)
            (save_path download_dir url)).1)),
        if dirs.contains download_dir then dirs else download_dir :: dirs)
  else .error .makedirsFailed

/-- The world one top-level call runs against: the outcome of fetching
the source page (`none` = `requests.RequestException` or a non-success
status, i.e. the `except` branch of `scrape`; `some soup` = the parsed
document), the resource-level environment, and the directories
existing under `downloads/`. -/
structure World where
  page : Option (List Tag)
  env : Env
  dirs : List String

/-- Observable outcome of one top-level call: the returned value
(`.ok none` models the empty dict `{}`, `.ok (some s)` the location
response), the filesystem after the call, and how many page fetches
and resource fetches the call performed. -/
structure CallResult where
  response : Except PipelineError (Option String)
  world : World
  pageFetches : Nat
  resourceFetches : Nat

/-- The location string both `scrape` and the router build:
`http://127.0.0.1:8000/api/downloads/` followed by the hashed
directory name. -/
def download_location (hashed_dir : String) : String :=
  "http://127.0.0.1:8000/api/downloads/" ++ hashed_dir

/-- Model of Python `s.split('/')`: segments between slashes, empty
segments kept. -/
def splitSlashAux : List Char → List Char → List (List Char)
  | acc, [] => [acc.reverse]
  | acc, c :: rest =>
      if c = '/' then acc.reverse :: splitSlashAux [] rest
      else splitSlashAux (c :: acc) rest

def splitSlash (s : String) : List String :=
  (splitSlashAux [] s.data).map String.mk

/-- Embedding of `scrape` (images.py). The page fetch happens exactly
once; on failure the function returns `{}` before any parsing,
extraction, directory creation or resource fetch. On success it hashes
the URL, builds `base_domain = "https://" + url.split('/')[2]`
(an out-of-range index raises `IndexError`), and runs `scrape_images`,
whose result value is discarded but whose effects and exceptions
remain. Every submitted candidate performs one `session.get`, so a
completed run counts `(collect_candidates soup).length` resource
fetches. -/
def scrape (md5hex : String → String) (w : World) (url : String)
    (order : List Nat) : CallResult :=
  match w.page with
  | none => ⟨.ok none, w, 1, 0⟩
  | some soup =>
    match (splitSlash url).get? 2 with
    | none => ⟨.error .indexError, w, 1, 0⟩
    | some host =>
      match scrape_images w.env soup ("https://" ++ host)
          (sanitize_url md5hex url) w.dirs order with
      | .error e => ⟨.error e, w, 1, 0⟩
      | .ok (_, dirs') =>
        ⟨.ok (some (download_location (sanitize_url md5hex url))),
          { w with dirs := dirs' }, 1, (collect_candidates soup).length⟩

/-- Embedding of `scrape_images_endpoint` (root.py): hash the URL,
and if `downloads/<hash>` is already a directory return the location
response without calling `scrape` (hence with no fetch of any kind);
otherwise delegate to `scrape`. -/
def scrape_images_endpoint (md5hex : String → String) (w : World) (url : String)
    (order : List Nat) : CallResult :=
  if w.dirs.contains (sanitize_url md5hex url) then
    ⟨.ok (some (download_location (sanitize_url md5hex url))), w, 0, 0⟩
  else scrape md5hex w url order

/-- An `HTTPException` as raised by `get_downloads`: status code and
detail string. -/
structure HTTPErr where
  status : Nat
  detail : String
deriving DecidableEq, Repr

/-- The per-file test of `get_downloads`:
`filename.lower().endswith(('.jpg', '.jpeg', '.png', '.gif', '.bmp', '.webp'))`
(the tuple equals `image_extensions`). -/
def qualifies (filename : String) : Bool :=
  image_extensions.any (fun ext => endswith (lower filename) ext)

/-- Embedding of `get_downloads` (images.py). `dirExists` is
`os.path.isdir(os.path.join('downloads', hash_value))` and `files` is
`os.listdir` of that directory (arbitrary order). The loop appends
`/downloads/<hash>/<filename>` for each qualifying file; an absent
directory raises 404 "Directory not found", an empty collection raises
404 "No images found in the directory". -/
def get_downloads (hash_value : String) (dirExists : Bool)
    (files : List String) : Except HTTPErr (List String) :=
  if !dirExists then .error ⟨404, "Directory not found"⟩
  else
    let image_files := files.foldl (fun acc filename =>
      if qualifies filename then
        acc ++ ["/downloads/" ++ hash_value ++ "/" ++ filename]
      else acc) []
    if image_files = [] then .error ⟨404, "No images found in the directory"⟩
    else .ok image_files

/-- The `max_workers` argument of the `ThreadPoolExecutor` in
`scrape_images`. -/
def scrape_images_max_workers : Nat := 10

/-- Scheduler state of the worker pool: how many submitted futures are
not yet started, how many are running (in-flight fetch-validate
workers), and how many have finished. -/
structure PoolState where
  pending : Nat
  running : Nat
  finished : Nat
deriving DecidableEq, Repr

/-- Small-step semantics of a `ThreadPoolExecutor` with `maxWorkers`
worker threads: a pending future may start only while fewer than
`maxWorkers` are running, and a running future may finish. -/
inductive PoolStep (maxWorkers : Nat) : PoolState → PoolState → Prop
  | start (p r f : Nat) : r < maxWorkers →
      PoolStep maxWorkers ⟨p + 1, r, f⟩ ⟨p, r + 1, f⟩
  | finish (p r f : Nat) :
      PoolStep maxWorkers ⟨p, r + 1, f⟩ ⟨p, r, f + 1⟩

/-- Reflexive-transitive closure of `PoolStep` from an initial state. -/
inductive PoolReachable (maxWorkers : Nat) (init : PoolState) : PoolState → Prop
  | refl : PoolReachable maxWorkers init init
  | step {s s' : PoolState} : PoolReachable maxWorkers init s →
      PoolStep maxWorkers s s' → PoolReachable maxWorkers init s'

/-- Success predicate of one fetch-validate attempt: the resource
fetch returned a body, `raise_for_status` passed, PIL decoded the
bytes, and the decoded format tag is an accepted one. -/
def valid_fetch (env : Env) (url : String) : Bool :=
  match env.fetch url with
  | none => false
  | some r =>
    r.ok && (match env.decode r.content with
      | none => false
      | some fmt => valid_image_formats.contains fmt)

/-- A concrete environment in which one URL serves a JPEG payload and
everything else fails, with all filesystem operations succeeding. -/
def demo_env : Env where
  fetch := fun u =>
    if u = "https://site.com/a.jpg" then some ⟨[255, 216, 255, 224], true⟩ else none
  decode := fun b => if b = [255, 216, 255, 224] then some "JPEG" else none
  writeOk := fun _ => true
  makedirsOk := true

/-- C1: when the local write can succeed, `download_image_if_valid`
writes to the destination path exactly when the HTTP fetch succeeded
and the bytes decode to a format tag in {JPEG, PNG, GIF, BMP, WEBP};
any other payload yields `None` with nothing written, and on success
the returned URL is the fetched one and the raw fetched bytes are
written verbatim. -/
theorem C1_download_validation (env : Env) (url p : String)
    (hw : env.writeOk p = true) :
    ((download_image_if_valid env url p).2 ≠ none ↔ valid_fetch env url = true) ∧
    (valid_fetch env url = false →
      download_image_if_valid env url p = (none, none)) ∧
    (valid_fetch env url = true →
      download_image_if_valid env url p =
        (some url, (env.fetch url).map FetchResponse.content)) := by
  unfold download_image_if_valid valid_fetch
  cases hf : env.fetch url with
  | none => simp
  | some r =>
    cases hok : r.ok with
    | false => simp [hok]
    | true =>
      cases hd : env.decode r.content with
      | none => simp [hok, hd]
      | some fmt =>
        by_cases hv : fmt ∈ valid_image_formats
        · simp [hok, hd, hv, hw]
        · simp [hok, hd, hv]

/-- Witness for C1 at a concrete environment and URL. -/
theorem C1_download_validation_witness :
    demo_env.writeOk "downloads/d/a.jpg" = true ∧
    (((download_image_if_valid demo_env "https://site.com/a.jpg"
          "downloads/d/a.jpg").2 ≠ none ↔
        valid_fetch demo_env "https://site.com/a.jpg" = true) ∧
      (valid_fetch demo_env "https://site.com/a.jpg" = false →
        download_image_if_valid demo_env "https://site.com/a.jpg"
          "downloads/d/a.jpg" = (none, none)) ∧
      (valid_fetch demo_env "https://site.com/a.jpg" = true →
        download_image_if_valid demo_env "https://site.com/a.jpg"
            "downloads/d/a.jpg" =
          (some "https://site.com/a.jpg",
            (demo_env.fetch "https://site.com/a.jpg").map FetchResponse.content))) :=
  ⟨rfl, C1_download_validation demo_env "https://site.com/a.jpg"
    "downloads/d/a.jpg" rfl⟩

/-- C2 fails on the code: a root-relative reference is joined against
the full base URL string, not against its scheme+host, so with a base
that carries a path the spec's table entry is violated. -/
theorem C2_resolution_counterexample :
    resolve_url "/img/a.png" "https://site.com/x/y" ≠ "https://site.com/img/a.png" := by
  decide

/-- C2 amended: the first, third and fourth table entries hold as
written; a root-relative reference joins against the whole base URL
(trailing slashes stripped, one separating slash), which agrees with
the spec's entry only when the base is a bare scheme+host. -/
theorem C2_resolution_table_amended :
    resolve_url "//cdn.example.com/a.png" "https://site.com/x" =
        "https://cdn.example.com/a.png" ∧
    resolve_url "/img/a.png" "https://site.com/x/y" =
        "https://site.com/x/y/img/a.png" ∧
    resolve_url "/img/a.png" "https://site.com" = "https://site.com/img/a.png" ∧
    resolve_url "a.png" "https://site.com/x/" = "https://site.com/x/a.png" ∧
    resolve_url "https://cdn.com/a.png" "https://site.com" =
        "https://cdn.com/a.png" :=
  ⟨by decide, by decide, by decide, by decide, by decide⟩

/-- C5 fails on the code: `ë` is a single character outside
`[a-zA-Z0-9\-.]`, so it becomes a single underscore and the `e` of the
spec's expected output does not appear. -/
theorem C5_sanitize_counterexample :
    sanitize_image_name "wëird name!.png" ≠ "w_eird_name_.png" := by
  decide

/-- C5 amended: every character of the output is in `[a-zA-Z0-9\-.]`
or an underscore, the query string is stripped, and the examples read
`"photo.jpg"` and `"w_ird_name_.png"` (each disallowed character,
including `ë`, becomes one underscore). -/
theorem C5_sanitize_amended :
    (∀ s : String, ∀ c ∈ (sanitize_image_name s).data,
      allowedChar c = true ∨ c = '_') ∧
    sanitize_image_name "photo.jpg?size=large&v=2" = "photo.jpg" ∧
    sanitize_image_name "wëird name!.png" = "w_ird_name_.png" := by
  refine ⟨?_, by decide, by decide⟩
  intro s c hc
  simp only [sanitize_image_name, List.mem_map] at hc
  obtain ⟨a, _, ha⟩ := hc
  by_cases h : allowedChar a
  · left
    rw [← ha]
    simp [h]
  · right
    rw [← ha]
    simp [h]

/-- Witness for C5's amended universal clause at a concrete character
of a concrete sanitized name. -/
theorem C5_sanitize_amended_witness :
    'w' ∈ (sanitize_image_name "wëird name!.png").data ∧
    (allowedChar 'w' = true ∨ 'w' = '_') :=
  ⟨by decide, C5_sanitize_amended.1 "wëird name!.png" 'w' (by decide)⟩

/-- C10: the absolute-URL test of `resolve_url` is a textual prefix
test, so every reference starting with the characters "http" — even a
path-relative name like "httpfoo.png" — is returned unchanged and
never joined against the base. -/
theorem C10_prefix_test (url base_url : String)
    (h : startswith url "http" = true) :
    resolve_url url base_url = url := by
  unfold resolve_url
  rw [h]
  simp

/-- Witness for C10 at the claim's example reference. -/
theorem C10_prefix_test_witness :
    startswith "httpfoo.png" "http" = true ∧
    resolve_url "httpfoo.png" "https://site.com/x" = "httpfoo.png" :=
  ⟨by decide, C10_prefix_test "httpfoo.png" "https://site.com/x" (by decide)⟩

/-- The collection loop of `get_downloads` appends exactly the
qualifying files, in listing order, as `/downloads/<hash>/<name>`
paths. -/
theorem get_downloads_foldl (hash_value : String) (files acc : List String) :
    files.foldl (fun acc filename =>
        if qualifies filename then
          acc ++ ["/downloads/" ++ hash_value ++ "/" ++ filename]
        else acc) acc =
      acc ++ (files.filter qualifies).map
        (fun fn => "/downloads/" ++ hash_value ++ "/" ++ fn) := by
  induction files generalizing acc with
  | nil => simp
  | cons f fs ih =>
    cases h : qualifies f with
    | true => simp [List.filter_cons, h, ih]
    | false => simp [List.filter_cons, h, ih]

/-- C7: `get_downloads` raises 404 "Directory not found" when the
store directory is absent, raises the distinct 404 "No images found in
the directory" when it exists but holds no file whose lowercase name
ends in a supported image extension, and otherwise returns exactly the
qualifying files as `/downloads/<hash>/<name>` paths. -/
theorem C7_get_downloads (hash_value : String) (files : List String) :
    get_downloads hash_value false files = .error ⟨404, "Directory not found"⟩ ∧
    (files.filter qualifies = [] →
      get_downloads hash_value true files =
        .error ⟨404, "No images found in the directory"⟩) ∧
    (files.filter qualifies ≠ [] →
      get_downloads hash_value true files =
        .ok ((files.filter qualifies).map
          (fun fn => "/downloads/" ++ hash_value ++ "/" ++ fn))) ∧
    (⟨404, "No images found in the directory"⟩ : HTTPErr) ≠
      ⟨404, "Directory not found"⟩ := by
  refine ⟨rfl, ?_, ?_, by decide⟩
  · intro h
    unfold get_downloads
    simp [get_downloads_foldl, h]
  · intro h
    unfold get_downloads
    simp [get_downloads_foldl, h]

/-- Witness for C7 at concrete directory states and listings. -/
theorem C7_get_downloads_witness :
    get_downloads "h" false ["a.jpg"] = .error ⟨404, "Directory not found"⟩ ∧
    get_downloads "h" true ["b.txt"] =
      .error ⟨404, "No images found in the directory"⟩ ∧
    get_downloads "h" true ["a.jpg", "b.txt"] = .ok ["/downloads/h/a.jpg"] :=
  ⟨(C7_get_downloads "h" ["a.jpg"]).1,
    (C7_get_downloads "h" ["b.txt"]).2.1 (by decide),
    (C7_get_downloads "h" ["a.jpg", "b.txt"]).2.2.1 (by decide)⟩

/-- C8: when the source page fetch fails, `scrape` returns the empty
result after exactly one page fetch, with the world unchanged (no
directory created) and zero resource fetches — none of the later
pipeline stages runs. -/
theorem C8_page_unreachable (md5hex : String → String) (w : World)
    (url : String) (order : List Nat) (h : w.page = none) :
    scrape md5hex w url order = ⟨.ok none, w, 1, 0⟩ := by
  unfold scrape
  rw [h]

/-- A world whose page fetch fails. -/
def offline_world : World := ⟨none, demo_env, []⟩

/-- Witness for C8 at a concrete offline world. -/
theorem C8_page_unreachable_witness :
    offline_world.page = none ∧
    scrape (fun s => s) offline_world "https://site.com/x" [] =
      ⟨.ok none, offline_world, 1, 0⟩ :=
  ⟨rfl, C8_page_unreachable (fun s => s) offline_world "https://site.com/x" [] rfl⟩

/-- C9: for every candidate list, every pool state reachable from
dispatching those candidates to the `ThreadPoolExecutor` of
`scrape_images` keeps at most `max_workers = 10` workers in flight. -/
theorem C9_pool_ceiling (soup : List Tag) (s : PoolState)
    (h : PoolReachable scrape_images_max_workers
      ⟨(collect_candidates soup).length, 0, 0⟩ s) :
    s.running ≤ scrape_images_max_workers := by
  induction h with
  | refl => exact Nat.zero_le _
  | step hr hs ih =>
    cases hs with
    | start p r f hlt => exact hlt
    | finish p r f => exact Nat.le_of_succ_le ih

/-- A page with 50 image candidates. -/
def soup50 : List Tag := List.replicate 50 ⟨"img", none, some "/a.png"⟩

/-- Witness for C9: after one start step from a 50-candidate dispatch,
the in-flight count is within the ceiling. -/
theorem C9_pool_ceiling_witness :
    PoolReachable scrape_images_max_workers
      ⟨(collect_candidates soup50).length, 0, 0⟩ ⟨49, 1, 0⟩ ∧
    (PoolState.mk 49 1 0).running ≤ scrape_images_max_workers :=
  have hreach : PoolReachable scrape_images_max_workers
      ⟨(collect_candidates soup50).length, 0, 0⟩ ⟨49, 1, 0⟩ :=
    .step .refl (.start 49 0 0 (by decide))
  ⟨hreach, C9_pool_ceiling soup50 ⟨49, 1, 0⟩ hreach⟩

/-- One fetch-validate attempt either fails, or returns exactly the
URL it was asked to fetch. -/
theorem download_fst_cases (env : Env) (url p : String) :
    (download_image_if_valid env url p).1 = none ∨
    (download_image_if_valid env url p).1 = some url := by
  unfold download_image_if_valid
  cases hf : env.fetch url with
  | none => left; rfl
  | some r =>
    cases hok : r.ok with
    | false => left; simp [hok]
    | true =>
      cases hd : env.decode r.content with
      | none => left; simp [hok, hd]
      | some fmt =>
        by_cases hv : fmt ∈ valid_image_formats
        · by_cases hw : env.writeOk p = true
          · right; simp [hok, hd, hv, hw]
          · left; simp [hok, hd, hv, hw]
        · left; simp [hok, hd, hv]

/-- Whether the fetch-validate worker for a raw candidate succeeds
(fetch, decode, format check and local write all pass). -/
def downloadSuccess (env : Env) (base_url download_dir : String)
    (url : String) : Bool :=
  ((download_image_if_valid env (resolve_url url base_url)
    (save_path download_dir url)).1).isSome

/-- Mapping the fetch-validate worker over a candidate list keeps
exactly the successful candidates, each as its resolved URL. -/
theorem filterMap_download (env : Env) (base_url download_dir : String)
    (l : List String) :
    l.filterMap (fun url => (download_image_if_valid env (resolve_url url base_url)
        (save_path download_dir url)).1) =
      (l.filter (downloadSuccess env base_url download_dir)).map
        (fun url => resolve_url url base_url) := by
  induction l with
  | nil => rfl
  | cons u us ih =>
    rcases download_fst_cases env (resolve_url u base_url)
        (save_path download_dir u) with h | h
    · simp [List.filterMap_cons, List.filter_cons, downloadSuccess, h, ih]
    · simp [List.filterMap_cons, List.filter_cons, downloadSuccess, h, ih]

/-- Collecting futures by index over all of `List.range` is the same
as processing the submitted list directly. -/
theorem range_filterMap_get (f : String → Option String) (l : List String) :
    (List.range l.length).filterMap (fun i => (l.get? i).bind f) =
      l.filterMap f := by
  induction l with
  | nil => rfl
  | cons u us ih =>
    have hcomp : ((fun i => ((u :: us).get? i).bind f) ∘ Nat.succ) =
        (fun i => (us.get? i).bind f) := by
      funext i
      rfl
    simp only [List.length_cons, List.range_succ_eq_map, List.filterMap_cons,
      List.get?_cons_zero, Option.some_bind, List.filterMap_map, hcomp, ih]

/-- C3: with the directory creation succeeding, `scrape_images`
completes normally (never with an error) for every environment —
however many fetches or validations fail — and, for every completion
order of the dispatched futures, returns exactly the resolved URLs of
the candidates whose fetch-and-validate succeeded, every dispatched
candidate having contributed its outcome. -/
theorem C3_partial_failure (env : Env) (soup : List Tag)
    (base_url download_dir : String) (dirs : List String) (order : List Nat)
    (hperm : order.Perm (List.range (collect_candidates soup).length))
    (hm : env.makedirsOk = true) :
    ∃ results dirs',
      scrape_images env soup base_url download_dir dirs order =
        .ok (results, dirs') ∧
      results.Perm (((collect_candidates soup).filter
          (downloadSuccess env base_url download_dir)).map
        (fun url => resolve_url url base_url)) := by
  unfold scrape_images
  rw [hm]
  simp only [if_true]
  refine ⟨_, _, rfl, ?_⟩
  have h1 := hperm.filterMap (fun i => ((collect_candidates soup).get? i).bind
    (fun url => (download_image_if_valid env (resolve_url url base_url)
      (save_path download_dir url)).1))
  rw [range_filterMap_get, filterMap_download] at h1
  exact h1

/-- The spec's five-candidate page: two resources succeed, two fail to
fetch, one fetches but carries a non-image payload. -/
def soup5 : List Tag :=
  [⟨"img", none, some "/ok1.jpg"⟩, ⟨"img", none, some "/ok2.png"⟩,
   ⟨"img", none, some "/fail1.jpg"⟩, ⟨"a", some "/fail2.gif", none⟩,
   ⟨"img", none, some "/html.jpg"⟩]

/-- Environment for `soup5`: `/html.jpg` serves bytes PIL cannot
decode, the two `fail` URLs are unreachable. -/
def env5 : Env where
  fetch := fun u =>
    if u = "https://s.com/ok1.jpg" then some ⟨[1], true⟩
    else if u = "https://s.com/ok2.png" then some ⟨[2], true⟩
    else if u = "https://s.com/html.jpg" then some ⟨[60, 104], true⟩
    else none
  decode := fun b =>
    if b = [1] then some "JPEG" else if b = [2] then some "PNG" else none
  writeOk := fun _ => true
  makedirsOk := true

/-- Witness for C3 at the five-candidate scenario with a completion
order different from submission order. -/
theorem C3_partial_failure_witness :
    ([4, 3, 2, 1, 0] : List Nat).Perm
      (List.range (collect_candidates soup5).length) ∧
    env5.makedirsOk = true ∧
    (∃ results dirs',
      scrape_images env5 soup5 "https://s.com" "d" [] [4, 3, 2, 1, 0] =
        .ok (results, dirs') ∧
      results.Perm (((collect_candidates soup5).filter
          (downloadSuccess env5 "https://s.com" "d")).map
        (fun url => resolve_url url "https://s.com"))) :=
  ⟨by decide, rfl,
    C3_partial_failure env5 soup5 "https://s.com" "d" [] [4, 3, 2, 1, 0]
      (by decide) rfl⟩

/-- Environment in which fetch, decode and format check succeed for
`demo_env`'s URL but every local write fails. -/
def env_writefail : Env where
  fetch := fun u =>
    if u = "https://site.com/a.jpg" then some ⟨[255, 216, 255, 224], true⟩ else none
  decode := fun b => if b = [255, 216, 255, 224] then some "JPEG" else none
  writeOk := fun _ => false
  makedirsOk := true

/-- C6 fails on the code for the write half: the local write sits
inside the worker's `try/except Exception`, so a write failure on a
fully validated payload becomes a swallowed per-resource Failure
(`None`, nothing written) while the run still completes normally. -/
theorem C6_counterexample :
    env_writefail.writeOk (save_path "d" "/a.jpg") = false ∧
    valid_fetch env_writefail "https://site.com/a.jpg" = true ∧
    download_image_if_valid env_writefail "https://site.com/a.jpg"
      (save_path "d" "/a.jpg") = (none, none) ∧
    scrape_images env_writefail [⟨"img", none, some "/a.jpg"⟩]
      "https://site.com" "d" [] [0] = .ok ([], ["d"]) :=
  ⟨rfl, rfl, rfl, rfl⟩

/-- Environment whose directory creation fails. -/
def env_nodirs : Env where
  fetch := fun _ => none
  decode := fun _ => none
  writeOk := fun _ => true
  makedirsOk := false

/-- C6 amended: a store-directory creation failure propagates out of
`scrape_images` as a hard failure of the run, but a failure of the
local file write is caught by the worker's `except` handler and
becomes a per-resource Failure with nothing written — the run itself
still completes normally. -/
theorem C6_filesystem_failures_amended (env env' : Env) (soup : List Tag)
    (base_url download_dir p : String) (dirs : List String) (order : List Nat)
    (hm : env.makedirsOk = false) (hm' : env'.makedirsOk = true)
    (hw : env'.writeOk p = false) :
    scrape_images env soup base_url download_dir dirs order =
      .error .makedirsFailed ∧
    (∀ url, download_image_if_valid env' url p = (none, none)) ∧
    (∃ r, scrape_images env' soup base_url download_dir dirs order = .ok r) := by
  refine ⟨by unfold scrape_images; rw [hm]; rfl, ?_, ?_⟩
  · intro url
    unfold download_image_if_valid
    cases hf : env'.fetch url with
    | none => rfl
    | some r =>
      cases hok : r.ok with
      | false => simp [hok]
      | true =>
        cases hd : env'.decode r.content with
        | none => simp [hok, hd]
        | some fmt =>
          by_cases hv : fmt ∈ valid_image_formats
          · simp [hok, hd, hv, hw]
          · simp [hok, hd, hv]
  · exact ⟨_, by unfold scrape_images; rw [hm']; rfl⟩

/-- Witness for C6's amended statement at concrete environments. -/
theorem C6_filesystem_failures_amended_witness :
    env_nodirs.makedirsOk = false ∧ env_writefail.makedirsOk = true ∧
    env_writefail.writeOk "downloads/d/a.jpg" = false ∧
    (scrape_images env_nodirs [] "https://site.com" "d" [] [] =
        .error .makedirsFailed ∧
      (∀ url, download_image_if_valid env_writefail url "downloads/d/a.jpg" =
        (none, none)) ∧
      (∃ r, scrape_images env_writefail [] "https://site.com" "d" [] [] =
        .ok r)) :=
  ⟨rfl, rfl, rfl,
    C6_filesystem_failures_amended env_nodirs env_writefail []
      "https://site.com" "d" "downloads/d/a.jpg" [] [] rfl rfl rfl⟩

/-- A cache hit at the router: when `downloads/<hash>` exists the
endpoint answers the location response directly, with no fetch of any
kind and the world untouched. -/
theorem endpoint_cache_hit (md5hex : String → String) (w : World)
    (url : String) (order : List Nat)
    (h : sanitize_url md5hex url ∈ w.dirs) :
    scrape_images_endpoint md5hex w url order =
      ⟨.ok (some (download_location (sanitize_url md5hex url))), w, 0, 0⟩ := by
  unfold scrape_images_endpoint
  simp [h]

/-- A cache miss at the router delegates to `scrape`. -/
theorem endpoint_cache_miss (md5hex : String → String) (w : World)
    (url : String) (order : List Nat)
    (h : sanitize_url md5hex url ∉ w.dirs) :
    scrape_images_endpoint md5hex w url order = scrape md5hex w url order := by
  unfold scrape_images_endpoint
  simp [h]

/-- If after a call to the endpoint the hashed directory exists, that
call answered the location response. -/
theorem endpoint_dirs_response (md5hex : String → String) (w : World)
    (url : String) (order : List Nat)
    (h : sanitize_url md5hex url ∈
      (scrape_images_endpoint md5hex w url order).world.dirs) :
    (scrape_images_endpoint md5hex w url order).response =
      .ok (some (download_location (sanitize_url md5hex url))) := by
  by_cases h0 : sanitize_url md5hex url ∈ w.dirs
  · rw [endpoint_cache_hit md5hex w url order h0]
  · rw [endpoint_cache_miss md5hex w url order h0] at h ⊢
    unfold scrape at h ⊢
    cases hp : w.page with
    | none =>
      simp only [hp] at h
      exact absurd h h0
    | some soup =>
      simp only [hp] at h ⊢
      cases hg : (splitSlash url).get? 2 with
      | none =>
        simp only [hg] at h
        exact absurd h h0
      | some host =>
        simp only [hg] at h ⊢
        cases hs : scrape_images w.env soup ("https://" ++ host)
            (sanitize_url md5hex url) w.dirs order with
        | error e =>
          simp only [hs] at h
          exact absurd h h0
        | ok pr =>
          obtain ⟨res, dirs'⟩ := pr
          simp only [hs]

/-- C4: once the first endpoint call leaves the hashed store directory
in place, a second call on the same URL string performs zero page
fetches and zero resource fetches, leaves the world unchanged, and
returns the same response as the first call — the hashed-directory
location URL. -/
theorem C4_second_call_cached (md5hex : String → String) (w : World)
    (url : String) (o1 o2 : List Nat)
    (h : sanitize_url md5hex url ∈
      (scrape_images_endpoint md5hex w url o1).world.dirs) :
    scrape_images_endpoint md5hex (scrape_images_endpoint md5hex w url o1).world
        url o2 =
      ⟨(scrape_images_endpoint md5hex w url o1).response,
        (scrape_images_endpoint md5hex w url o1).world, 0, 0⟩ ∧
    (scrape_images_endpoint md5hex w url o1).response =
      .ok (some (download_location (sanitize_url md5hex url))) := by
  have hresp := endpoint_dirs_response md5hex w url o1 h
  have h2 := endpoint_cache_hit md5hex
    (scrape_images_endpoint md5hex w url o1).world url o2 h
  refine ⟨?_, hresp⟩
  rw [h2, hresp]

/-- A stand-in digest function (the property holds for every digest
function, `hashlib.md5`'s 32-hex-character one included). -/
def md5k : String → String := fun _ => "k"

/-- A world with a reachable page holding no candidates. -/
def world0 : World := ⟨some [], demo_env, []⟩

/-- The first endpoint call of the C4 witness. -/
def call1 : CallResult := scrape_images_endpoint md5k world0 "https://site.com/x" []

/-- Witness for C4: a first call populates the store, a second call
answers from it with no fetches. -/
theorem C4_second_call_cached_witness :
    sanitize_url md5k "https://site.com/x" ∈ call1.world.dirs ∧
    (scrape_images_endpoint md5k call1.world "https://site.com/x" [] =
        ⟨call1.response, call1.world, 0, 0⟩ ∧
      call1.response =
        .ok (some (download_location (sanitize_url md5k "https://site.com/x")))) :=
  ⟨by decide, C4_second_call_cached md5k world0 "https://site.com/x" [] [] (by decide)⟩

end ScrapeIt
